import Mathlib

/-!
Verification of the msgrouter router core (router.go, component.go).

The Go program is shallowly embedded: Go maps become association lists over
Nat keys, component handles become opaque references (their pointer identity),
and each component's mutable ID field (set via SetID, read via GetID) is kept
in a per-state association list. Channels are finite queues with a capacity.
-/

namespace Msgrouter

/-- ComponentID is an ID used to select registered components (a UUID in the
source, modeled as an opaque Nat). -/
abbrev ComponentID := Nat

/-- Opaque reference identity of a Component handle (Go interface equality on
the pointer held in the registry). -/
abbrev CompRef := Nat

/-- Opaque message payload. -/
abbrev Payload := Nat

/-- REGISTER is an op code for msgReg. -/
def REGISTER : Nat := 0

/-- UNREGISTER is an op code for msgReg. -/
def UNREGISTER : Nat := 1

/-- ADDROUTE is an op code for msgRt. -/
def ADDROUTE : Nat := 0

/-- REMOVEROUTE is an op code for msgRt. -/
def REMOVEROUTE : Nat := 1

/-- LISTROUTES is an op code for msgRt. -/
def LISTROUTES : Nat := 2

/-- Go map lookup on an association list (first matching key). -/
def alookup {β : Type} (k : Nat) : List (Nat × β) → Option β
  | [] => none
  | (k1, v) :: rest => if k1 = k then some v else alookup k rest

/-- Go map assignment `m[k] = v`: replace the entry if the key is present,
otherwise add it. -/
def aupdate {β : Type} (k : Nat) (v : β) : List (Nat × β) → List (Nat × β)
  | [] => [(k, v)]
  | (k1, v1) :: rest => if k1 = k then (k, v) :: rest else (k1, v1) :: aupdate k v rest

/-- Go map `delete(m, k)`: remove the entry for the key (keys are unique in a
Go map, so removing the first occurrence suffices). -/
def aerase {β : Type} (k : Nat) : List (Nat × β) → List (Nat × β)
  | [] => []
  | (k1, v1) :: rest => if k1 = k then rest else (k1, v1) :: aerase k rest

/-- The mutable state owned by a GenericRouter, together with the ID fields of
all component handles: `rc` is the registry (ComponentID to handle), `rt` the
routingTable (ComponentID to destination handles), and `ids` records, per
handle, the ComponentID its GetID reports (absent when GetID errors; SetID
writes it). -/
structure RouterState where
  rc : List (ComponentID × CompRef)
  rt : List (ComponentID × List CompRef)
  ids : List (CompRef × ComponentID)
deriving DecidableEq

/-- msgMsg: a message envelope (source id and payload). -/
structure MsgMsg where
  src : ComponentID
  payload : Payload
deriving DecidableEq

/-- msgRt: a route-operation envelope. -/
structure MsgRt where
  op : Nat
  src : ComponentID
  dest : ComponentID
deriving DecidableEq

/-- msgReg: a registration envelope. -/
structure MsgReg where
  c : CompRef
  op : Nat
deriving DecidableEq

/-- Internal send handler: confirms the source is registered, obtains its
routes, and calls each destination handle's Send with the payload, discarding
each result. Returns the sequence of delivery attempts (destination, payload,
outcome of that destination's Send as given by `sendOk`). The handler never
mutates the router state, which is why no state is returned. -/
def send (sendOk : CompRef → Payload → Bool) (s : RouterState) (m : MsgMsg) :
    List (CompRef × Payload × Bool) :=
  match alookup m.src s.rc with
  | none => []
  | some _ =>
    match alookup m.src s.rt with
    | none => []
    | some routesArray => routesArray.map (fun comp => (comp, m.payload, sendOk comp m.payload))

/-- The fallthrough tail of registerComponent: ask the identity collaborator
for a fresh UUID (its outcome is the `newUUID` argument, since the generator
itself is an external collaborator), fail if that fails, otherwise SetID the
handle and insert it into the registry. -/
def registerFallthrough (newUUID : Option ComponentID) (s : RouterState) (c : CompRef) :
    Option String × RouterState :=
  match newUUID with
  | none => (some "Could not generate UUID", s)
  | some uuid => (none, { s with ids := aupdate c uuid s.ids, rc := aupdate uuid c s.rc })

/-- registerComponent handler: if the handle's GetID succeeds and the registry
maps that ID to this same handle, return success without touching anything;
otherwise fall through to fresh registration. -/
def registerComponent (newUUID : Option ComponentID) (s : RouterState) (c : CompRef) :
    Option String × RouterState :=
  match alookup c s.ids with
  | some id =>
    match alookup id s.rc with
    | some comp =>
      if comp = c then (none, s) else registerFallthrough newUUID s c
    | none => registerFallthrough newUUID s c
  | none => registerFallthrough newUUID s c

/-- unregisterComponent handler: if the handle's GetID succeeds and the ID is
in the registry, delete that registry entry; otherwise fail. The stored handle
is never compared against the submitted one. -/
def unregisterComponent (s : RouterState) (c : CompRef) : Option String × RouterState :=
  match alookup c s.ids with
  | some id =>
    match alookup id s.rc with
    | some _ => (none, { s with rc := aerase id s.rc })
    | none => (some "Component not registered", s)
  | none => (some "Component not registered", s)

/-- addRoute handler. Faithful to the source: after checking both endpoints
are registered it appends the destination handle to a local copy of the
slice header (`srcArray = append(srcArray, r.rc[m.dest])`) but never assigns
the result back into `r.rt`, so the routing table is left as it was. -/
def addRoute (s : RouterState) (m : MsgRt) : RouterState :=
  match alookup m.src s.rc with
  | none => s
  | some _ =>
    match alookup m.dest s.rc with
    | none => s
    | some destComp =>
      let srcArray := (alookup m.src s.rt).getD []
      let _srcArrayAfterAppend := srcArray ++ [destComp]
      s

/-- The removeRoute scan. `b` is the backing array of the source's slice (its
length never changes: the swap writes in place), `L` the length of the local
slice variable after the truncations so far, `i` the range index (the range
iterates over the original header, reading `b` at iteration time), and `fuel`
the remaining iterations. On a match the source swaps `srcArray[len-1]` with
`srcArray[i]` and truncates the local variable by one; indexing the truncated
local slice out of range (`i ≥ L`) is a Go panic, returned as `none`. -/
def rrLoop (d : CompRef) (b : List CompRef) (L i fuel : Nat) :
    Option (List CompRef × Nat) :=
  match fuel with
  | 0 => some (b, L)
  | Nat.succ fuel1 =>
    match b.get? i with
    | none => some (b, L)
    | some c =>
      if c = d then
        if i < L then
          rrLoop d ((b.set (L - 1) c).set i (b.getD (L - 1) 0)) (L - 1) (i + 1) fuel1
        else none
      else rrLoop d b L (i + 1) fuel1

/-- removeRoute handler. Faithful to the source: after checking both endpoints
are registered it runs the swap-and-truncate scan on the slice obtained from
the map. The swaps mutate the shared backing array, but the truncated slice
header is never stored back into `r.rt`, so the map entry keeps its original
length and only sees the final backing array. `none` is a Go panic. -/
def removeRoute (s : RouterState) (m : MsgRt) : Option RouterState :=
  match alookup m.src s.rc with
  | none => some s
  | some _ =>
    match alookup m.dest s.rc with
    | none => some s
    | some destComp =>
      match alookup m.src s.rt with
      | none => some s
      | some b0 =>
        match rrLoop destComp b0 b0.length 0 b0.length with
        | none => none
        | some (b1, _) => some { s with rt := aupdate m.src b1 s.rt }

/-- Which of the three internal channels the select statement fires on. -/
inductive ChanPick where
  | msg : ChanPick
  | rt : ChanPick
  | reg : ChanPick
deriving DecidableEq

/-- The three bounded channels of a GenericRouter. -/
structure Channels where
  msgQ : List MsgMsg
  rtQ : List MsgRt
  regQ : List MsgReg
deriving DecidableEq

/-- Consume: a single select over the three internal channels, dispatching one
envelope and then returning (the source has no loop). A message envelope is
dispatched with `go r.send(m)`: the spawned dispatch does not run inside
Consume, so it is returned in the spawned-task list with the state untouched.
The LISTROUTES case executes `fmt.Println()`, producing one empty output line.
`none` is a Go panic inside a handler. Picking an empty channel leaves
everything unchanged (the select would block). -/
def Consume (newUUID : Option ComponentID) (pick : ChanPick) (ch : Channels)
    (s : RouterState) : Option (Channels × RouterState × List MsgMsg × List String) :=
  match pick with
  | ChanPick.msg =>
    match ch.msgQ with
    | [] => some (ch, s, [], [])
    | m :: rest => some ({ ch with msgQ := rest }, s, [m], [])
  | ChanPick.rt =>
    match ch.rtQ with
    | [] => some (ch, s, [], [])
    | m :: rest =>
      let ch1 := { ch with rtQ := rest }
      if m.op = ADDROUTE then some (ch1, addRoute s m, [], [])
      else if m.op = REMOVEROUTE then
        match removeRoute s m with
        | none => none
        | some s1 => some (ch1, s1, [], [])
      else if m.op = LISTROUTES then some (ch1, s, [], [""])
      else some (ch1, s, [], [])
  | ChanPick.reg =>
    match ch.regQ with
    | [] => some (ch, s, [], [])
    | m :: rest =>
      let ch1 := { ch with regQ := rest }
      if m.op = UNREGISTER then some (ch1, (unregisterComponent s m.c).2, [], [])
      else if m.op = REGISTER then some (ch1, (registerComponent newUUID s m.c).2, [], [])
      else some (ch1, s, [], [])

/-- Outcome of a submit-side push onto a bounded channel: the envelope was
enqueued, or the push was refused with an error (select with a default case),
or the caller blocks (a plain channel send on a full channel). -/
inductive SubmitOutcome (α : Type) where
  | sent (q : List α) : SubmitOutcome α
  | rejected (err : String) : SubmitOutcome α
  | blocked : SubmitOutcome α
deriving DecidableEq

/-- Send wrapper: a select with a default case, so the push on the external
message channel is non-blocking and a full channel yields an error. -/
def Send (cap : Nat) (q : List MsgMsg) (m : MsgMsg) : SubmitOutcome MsgMsg :=
  if q.length < cap then SubmitOutcome.sent (q ++ [m])
  else SubmitOutcome.rejected "Could not send message to router"

/-- RegisterComponent wrapper: tags the REGISTER op code and performs a plain
(blocking) channel send on the external registration channel. -/
def RegisterComponent (cap : Nat) (q : List MsgReg) (m : MsgReg) : SubmitOutcome MsgReg :=
  if q.length < cap then SubmitOutcome.sent (q ++ [{ m with op := REGISTER }])
  else SubmitOutcome.blocked

/-- UnregisterComponent wrapper: tags the UNREGISTER op code and performs a
plain (blocking) channel send on the external registration channel. -/
def UnregisterComponent (cap : Nat) (q : List MsgReg) (m : MsgReg) : SubmitOutcome MsgReg :=
  if q.length < cap then SubmitOutcome.sent (q ++ [{ m with op := UNREGISTER }])
  else SubmitOutcome.blocked

/-- AddRoute wrapper: tags the ADDROUTE op code and performs a plain
(blocking) channel send on the external route channel. -/
def AddRoute (cap : Nat) (q : List MsgRt) (m : MsgRt) : SubmitOutcome MsgRt :=
  if q.length < cap then SubmitOutcome.sent (q ++ [{ m with op := ADDROUTE }])
  else SubmitOutcome.blocked

/-- RemoveRoute wrapper: tags the REMOVEROUTE op code and performs a plain
(blocking) channel send on the external route channel. -/
def RemoveRoute (cap : Nat) (q : List MsgRt) (m : MsgRt) : SubmitOutcome MsgRt :=
  if q.length < cap then SubmitOutcome.sent (q ++ [{ m with op := REMOVEROUTE }])
  else SubmitOutcome.blocked

/-- A state with two registered components: handle 10 under ID 0 and handle 11
under ID 1, with an empty routing table. -/
def demoState : RouterState :=
  { rc := [(0, 10), (1, 11)], rt := [], ids := [(10, 0), (11, 1)] }

/-- The completely empty router state. -/
def emptyState : RouterState :=
  { rc := [], rt := [], ids := [] }

end Msgrouter

namespace Msgrouter

/-- Key not among the first components implies lookup misses. -/
theorem alookup_eq_none_of_not_mem {β : Type} {k : Nat} {l : List (Nat × β)}
    (h : k ∉ l.map Prod.fst) : alookup k l = none := by
  induction l with
  | nil => rfl
  | cons p rest ih =>
    obtain ⟨k1, v1⟩ := p
    simp only [List.map_cons, List.mem_cons, not_or] at h
    have hne : k1 ≠ k := fun he => h.1 (he.symm)
    simp [alookup, hne, ih h.2]

/-- Looking up the key just assigned by a Go map update returns its value. -/
theorem alookup_aupdate_self {β : Type} (k : Nat) (v : β) (l : List (Nat × β)) :
    alookup k (aupdate k v l) = some v := by
  induction l with
  | nil => simp [aupdate, alookup]
  | cons p rest ih =>
    obtain ⟨k1, v1⟩ := p
    by_cases h1 : k1 = k
    · subst h1; simp [aupdate, alookup]
    · simp [aupdate, alookup, h1, ih]

/-- Deleting one key from a Go map leaves lookups of other keys unchanged. -/
theorem alookup_aerase_ne {β : Type} {k kd : Nat} (hk : k ≠ kd) (l : List (Nat × β)) :
    alookup k (aerase kd l) = alookup k l := by
  induction l with
  | nil => rfl
  | cons p rest ih =>
    obtain ⟨k1, v1⟩ := p
    by_cases h1 : k1 = kd
    · subst h1
      have hne : k1 ≠ k := fun he => hk he.symm
      simp [aerase, alookup, hne]
    · simp only [aerase, h1, if_false, alookup]
      by_cases h2 : k1 = k
      · simp [h2]
      · simp [h2, ih]

/-- With unique keys, deleting a key from a Go map makes its lookup miss. -/
theorem alookup_aerase_self {β : Type} {k : Nat} {l : List (Nat × β)}
    (h : (l.map Prod.fst).Nodup) : alookup k (aerase k l) = none := by
  induction l with
  | nil => rfl
  | cons p rest ih =>
    obtain ⟨k1, v1⟩ := p
    simp only [List.map_cons, List.nodup_cons] at h
    by_cases h1 : k1 = k
    · subst h1
      simpa [aerase] using alookup_eq_none_of_not_mem h.1
    · simp [aerase, alookup, h1, ih h.2]

/-- If the handle's GetID reports an ID and the registry maps that ID back to
this same handle, registerComponent returns success without touching state. -/
theorem register_noop_of_registered (u : Option ComponentID) (s : RouterState)
    (c : CompRef) (id : ComponentID) (h1 : alookup c s.ids = some id)
    (h2 : alookup id s.rc = some c) :
    registerComponent u s c = (none, s) := by
  simp [registerComponent, h1, h2]

end Msgrouter

namespace Msgrouter

/-- A state with two registered components and one route: handle 10 (ID 0)
routes to handle 11 (ID 1). -/
def routedState : RouterState :=
  { rc := [(0, 10), (1, 11)], rt := [(0, [11])], ids := [(10, 0), (11, 1)] }

/-- A routed state with three components, where source ID 0 fans out to the
handles 11 and 12. -/
def fanState : RouterState :=
  { rc := [(0, 10), (1, 11), (2, 12)], rt := [(0, [11, 12])], ids := [(10, 0), (11, 1), (12, 2)] }

/-- C1: the add-route handler never updates the routing table — the appended
slice is discarded — so after processing an add-route envelope for two
registered components A and B, a message envelope from A delivers nothing to
B (instead of exactly once, as claimed). -/
theorem addRoute_discards_append :
    (∀ (s : RouterState) (m : MsgRt), addRoute s m = s) ∧
    send (fun _ _ => true) (addRoute demoState { op := ADDROUTE, src := 0, dest := 1 })
        { src := 0, payload := 42 } = [] := by
  constructor
  · intro s m
    cases h1 : alookup m.src s.rc with
    | none => simp [addRoute, h1]
    | some comp =>
      cases h2 : alookup m.dest s.rc with
      | none => simp [addRoute, h1, h2]
      | some d => simp [addRoute, h1, h2]
  · rfl

/-- C2: Consume performs a single select and then returns, and a message
envelope is dispatched on a fresh goroutine (`go r.send(m)`): with two
messages queued, one call to Consume hands the first message back as a
spawned task, leaves the router state untouched (the dispatch has not run
synchronously), and leaves the second envelope unconsumed (no loop). -/
theorem Consume_single_select_spawns_send :
    Consume none ChanPick.msg ⟨[⟨0, 1⟩, ⟨0, 2⟩], [], []⟩ demoState =
      some (⟨[⟨0, 2⟩], [], []⟩, demoState, [⟨0, 1⟩], []) := rfl

/-- C4: the remove-route handler never stores the truncated slice back into
the routing table, so with A and B registered and the table mapping A to
[B-handle], processing a remove-route envelope for (A,B) leaves the table
entry exactly as it was, and a subsequent send from A still delivers to B
(instead of eliminating delivery, as claimed). -/
theorem removeRoute_entry_unchanged :
    removeRoute routedState { op := REMOVEROUTE, src := 0, dest := 1 } = some routedState ∧
    send (fun _ _ => true) routedState { src := 0, payload := 7 } = [(11, 7, true)] :=
  ⟨rfl, rfl⟩

/-- C9: the LISTROUTES case of Consume executes `fmt.Println()`: it mutates
nothing, but its output is a single empty line that is identical for a state
with an empty routing table and a state with a populated one, so it is not a
snapshot of the routing table. -/
theorem Consume_listroutes_empty_output :
    Consume none ChanPick.rt ⟨[], [⟨LISTROUTES, 0, 0⟩], []⟩ demoState =
      some (⟨[], [], []⟩, demoState, [], [""]) ∧
    Consume none ChanPick.rt ⟨[], [⟨LISTROUTES, 0, 0⟩], []⟩ fanState =
      some (⟨[], [], []⟩, fanState, [], [""]) :=
  ⟨rfl, rfl⟩

end Msgrouter

namespace Msgrouter

/-- C5: unregisterComponent fails with "Component not registered" whenever the
handle reports no ID or the reported ID misses the registry, and otherwise
deletes exactly that registry entry: the routing table is untouched, every
other registry key still looks up to the same handle, and (keys of a Go map
being unique) the deleted ID no longer resolves. -/
theorem unregisterComponent_spec (s : RouterState) (c : CompRef) :
    ((∀ id, alookup c s.ids = some id → alookup id s.rc = none) →
        unregisterComponent s c = (some "Component not registered", s)) ∧
    (∀ id comp, alookup c s.ids = some id → alookup id s.rc = some comp →
        unregisterComponent s c = (none, { s with rc := aerase id s.rc }) ∧
        (∀ k, k ≠ id → alookup k (aerase id s.rc) = alookup k s.rc) ∧
        ((s.rc.map Prod.fst).Nodup → alookup id (aerase id s.rc) = none)) := by
  constructor
  · intro h
    cases hid : alookup c s.ids with
    | none => simp [unregisterComponent, hid]
    | some id => simp [unregisterComponent, hid, h id hid]
  · intro id comp hid hcomp
    refine ⟨by simp [unregisterComponent, hid, hcomp], ?_, ?_⟩
    · intro k hk
      exact alookup_aerase_ne hk s.rc
    · intro hnd
      exact alookup_aerase_self hnd

/-- C5 witness: on the two-component demo state, unregistering handle 10
removes only ID 0's entry; on the empty state the call fails. -/
theorem unregisterComponent_spec_witness :
    unregisterComponent demoState 10 = (none, { demoState with rc := [(1, 11)] }) ∧
    unregisterComponent emptyState 10 = (some "Component not registered", emptyState) :=
  ⟨(((unregisterComponent_spec demoState 10).2 0 10 (by decide) (by decide)).1).trans
      (by decide),
   (unregisterComponent_spec emptyState 10).1 (fun id h => Option.noConfusion h)⟩

/-- C6: registerComponent is idempotent. If the handle already carries an ID
that the registry maps back to this same handle, the call is a no-op success;
and registering the same handle twice (with any identity-generator outcomes)
makes the second call a no-op success on the state left by the first, hence
the same ComponentID and no duplicate registry entry. -/
theorem registerComponent_idempotent (u : Option ComponentID) (s : RouterState)
    (c : CompRef) :
    (∀ id, alookup c s.ids = some id → alookup id s.rc = some c →
        registerComponent u s c = (none, s)) ∧
    (∀ uuid, registerComponent u (registerComponent (some uuid) s c).2 c =
        (none, (registerComponent (some uuid) s c).2)) := by
  constructor
  · intro id h1 h2
    exact register_noop_of_registered u s c id h1 h2
  · intro uuid
    cases h1 : alookup c s.ids with
    | none =>
      have hs2 : (registerComponent (some uuid) s c).2 =
          { s with ids := aupdate c uuid s.ids, rc := aupdate uuid c s.rc } := by
        simp [registerComponent, h1, registerFallthrough]
      rw [hs2]
      exact register_noop_of_registered u _ c uuid (alookup_aupdate_self c uuid s.ids)
        (alookup_aupdate_self uuid c s.rc)
    | some id =>
      cases h2 : alookup id s.rc with
      | none =>
        have hs2 : (registerComponent (some uuid) s c).2 =
            { s with ids := aupdate c uuid s.ids, rc := aupdate uuid c s.rc } := by
          simp [registerComponent, h1, h2, registerFallthrough]
        rw [hs2]
        exact register_noop_of_registered u _ c uuid (alookup_aupdate_self c uuid s.ids)
          (alookup_aupdate_self uuid c s.rc)
      | some comp =>
        by_cases h3 : comp = c
        · have hs2 : (registerComponent (some uuid) s c).2 = s := by
            simp [registerComponent, h1, h2, h3]
          rw [hs2]
          exact register_noop_of_registered u s c id h1 (h3 ▸ h2)
        · have hs2 : (registerComponent (some uuid) s c).2 =
              { s with ids := aupdate c uuid s.ids, rc := aupdate uuid c s.rc } := by
            simp [registerComponent, h1, h2, h3, registerFallthrough]
          rw [hs2]
          exact register_noop_of_registered u _ c uuid (alookup_aupdate_self c uuid s.ids)
            (alookup_aupdate_self uuid c s.rc)

/-- C6 witness: re-registering the already-registered handle 10 of the demo
state is a no-op success, and a fresh handle 20 registered twice on the empty
state is a no-op success the second time. -/
theorem registerComponent_idempotent_witness :
    registerComponent (some 5) demoState 10 = (none, demoState) ∧
    registerComponent none (registerComponent (some 7) emptyState 20).2 20 =
      (none, (registerComponent (some 7) emptyState 20).2) :=
  ⟨(registerComponent_idempotent (some 5) demoState 10).1 0 (by decide) (by decide),
   (registerComponent_idempotent none emptyState 20).2 7⟩

/-- C7: the message-dispatch handler drops the message (no delivery attempts;
it returns no state because it never mutates any) when the source is not
registered or has no routing-table entry; otherwise it attempts a send to
every listed destination, each attempt carrying that destination's own
outcome, so the attempted destinations do not depend on any send failing. -/
theorem send_spec (sendOk : CompRef → Payload → Bool) (s : RouterState) (m : MsgMsg) :
    (alookup m.src s.rc = none → send sendOk s m = []) ∧
    (alookup m.src s.rt = none → send sendOk s m = []) ∧
    (∀ routes, alookup m.src s.rc ≠ none → alookup m.src s.rt = some routes →
        send sendOk s m = routes.map (fun comp => (comp, m.payload, sendOk comp m.payload))) ∧
    (∀ sendOk2, (send sendOk s m).map (fun a => a.1) =
        (send sendOk2 s m).map (fun a => a.1)) := by
  refine ⟨?_, ?_, ?_, ?_⟩
  · intro h; simp [send, h]
  · intro h
    cases hrc : alookup m.src s.rc with
    | none => simp [send, hrc]
    | some comp => simp [send, hrc, h]
  · intro routes h1 h2
    cases hrc : alookup m.src s.rc with
    | none => exact absurd hrc h1
    | some comp => simp [send, hrc, h2]
  · intro sendOk2
    cases hrc : alookup m.src s.rc with
    | none => simp [send, hrc]
    | some comp =>
      cases hrt : alookup m.src s.rt with
      | none => simp [send, hrc, hrt]
      | some routes => simp [send, hrc, hrt]

/-- C7 witness: on the fan-out state, with a sender whose delivery to handle
11 fails, dispatch still attempts handle 12 afterwards. -/
theorem send_spec_witness :
    send (fun comp _ => decide (comp ≠ 11)) fanState { src := 0, payload := 7 } =
      [(11, 7, false), (12, 7, true)] :=
  ((send_spec (fun comp _ => decide (comp ≠ 11)) fanState { src := 0, payload := 7 }).2.2.1
      [11, 12] (by decide) (by decide)).trans (by decide)

/-- C8: when the handle is not currently registered under its own reported ID
(so the fresh-registration fallthrough runs) and the identity generator
fails, registerComponent reports the generation failure and returns the state
exactly as it was: no SetID on the handle and no registry change. -/
theorem register_uuid_failure (s : RouterState) (c : CompRef)
    (h : alookup c s.ids = none ∨
        ∃ id, alookup c s.ids = some id ∧ alookup id s.rc ≠ some c) :
    registerComponent none s c = (some "Could not generate UUID", s) := by
  rcases h with h | ⟨id, hid, hne⟩
  · simp [registerComponent, h, registerFallthrough]
  · cases hrc : alookup id s.rc with
    | none => simp [registerComponent, hid, hrc, registerFallthrough]
    | some comp =>
      have h3 : ¬ comp = c := fun he => hne (by rw [hrc, he])
      simp [registerComponent, hid, hrc, h3, registerFallthrough]

/-- C8 witness: registering a fresh handle on the empty state while the
identity generator fails reports the failure and changes nothing. -/
theorem register_uuid_failure_witness :
    registerComponent none emptyState 10 = (some "Could not generate UUID", emptyState) :=
  register_uuid_failure emptyState 10 (Or.inl (by decide))

/-- C10: unregisterComponent keys the deletion solely on the submitted
handle's reported ID: when that ID is registered to a different handle, the
call succeeds anyway and deletes the other component's registry entry. -/
theorem unregister_removes_other_component (s : RouterState) (c cOther : CompRef)
    (id : ComponentID) (h1 : alookup c s.ids = some id)
    (h2 : alookup id s.rc = some cOther) (_h3 : cOther ≠ c) :
    unregisterComponent s c = (none, { s with rc := aerase id s.rc }) := by
  simp [unregisterComponent, h1, h2]

/-- A state where handle 11 is registered under ID 0, while handle 10 (never
the one registered under 0) also reports ID 0. -/
def hijackState : RouterState :=
  { rc := [(0, 11)], rt := [], ids := [(10, 0), (11, 5)] }

/-- C10 witness: unregistering handle 10, which reports ID 0 although ID 0 is
registered to handle 11, succeeds and deletes handle 11's registry entry. -/
theorem unregister_removes_other_component_witness :
    unregisterComponent hijackState 10 = (none, { hijackState with rc := [] }) :=
  (unregister_removes_other_component hijackState 10 11 0 (by decide) (by decide)
      (by decide)).trans (by decide)

end Msgrouter

namespace Msgrouter

/-- C3 counterexample: RegisterComponent on a registration channel whose one
slot is taken does not fail with an error — the plain channel send blocks the
caller, contradicting the claim that every submit-side operation fails
immediately when capacity is exhausted. -/
theorem RegisterComponent_blocks_when_full :
    RegisterComponent 1 [⟨10, 0⟩] ⟨11, 0⟩ = SubmitOutcome.blocked := rfl

/-- C3 amended: only Send pushes non-blockingly, failing with the "could not
send" error on a full channel; RegisterComponent, UnregisterComponent,
AddRoute and RemoveRoute tag their op code and perform a plain channel send,
which enqueues while capacity is free and blocks the caller (returning no
error) once capacity is exhausted. -/
theorem submit_side_push_spec (cap : Nat) (qm : List MsgMsg) (qr : List MsgRt)
    (qg : List MsgReg) (m : MsgMsg) (mr : MsgRt) (mg : MsgReg) :
    (qm.length < cap → Send cap qm m = SubmitOutcome.sent (qm ++ [m])) ∧
    (cap ≤ qm.length →
        Send cap qm m = SubmitOutcome.rejected "Could not send message to router") ∧
    (qg.length < cap →
        RegisterComponent cap qg mg = SubmitOutcome.sent (qg ++ [{ mg with op := REGISTER }]) ∧
        UnregisterComponent cap qg mg =
          SubmitOutcome.sent (qg ++ [{ mg with op := UNREGISTER }])) ∧
    (cap ≤ qg.length →
        RegisterComponent cap qg mg = SubmitOutcome.blocked ∧
        UnregisterComponent cap qg mg = SubmitOutcome.blocked) ∧
    (qr.length < cap →
        AddRoute cap qr mr = SubmitOutcome.sent (qr ++ [{ mr with op := ADDROUTE }]) ∧
        RemoveRoute cap qr mr = SubmitOutcome.sent (qr ++ [{ mr with op := REMOVEROUTE }])) ∧
    (cap ≤ qr.length →
        AddRoute cap qr mr = SubmitOutcome.blocked ∧
        RemoveRoute cap qr mr = SubmitOutcome.blocked) := by
  refine ⟨?_, ?_, ?_, ?_, ?_, ?_⟩
  · intro h; simp [Send, h]
  · intro h; simp [Send, Nat.not_lt.mpr h]
  · intro h; exact ⟨by simp [RegisterComponent, h], by simp [UnregisterComponent, h]⟩
  · intro h
    exact ⟨by simp [RegisterComponent, Nat.not_lt.mpr h],
      by simp [UnregisterComponent, Nat.not_lt.mpr h]⟩
  · intro h; exact ⟨by simp [AddRoute, h], by simp [RemoveRoute, h]⟩
  · intro h
    exact ⟨by simp [AddRoute, Nat.not_lt.mpr h], by simp [RemoveRoute, Nat.not_lt.mpr h]⟩

/-- C3 amended witness: with capacity 1, a Send into a free channel is
enqueued, a Send into a full channel is rejected with the error, an AddRoute
into a free channel is enqueued with the ADDROUTE tag, and an AddRoute into a
full channel blocks. -/
theorem submit_side_push_spec_witness :
    Send 1 [] ⟨0, 7⟩ = SubmitOutcome.sent [⟨0, 7⟩] ∧
    Send 1 [⟨0, 7⟩] ⟨0, 8⟩ = SubmitOutcome.rejected "Could not send message to router" ∧
    AddRoute 1 [] ⟨9, 0, 1⟩ = SubmitOutcome.sent [⟨0, 0, 1⟩] ∧
    AddRoute 1 [⟨0, 0, 1⟩] ⟨9, 0, 2⟩ = SubmitOutcome.blocked :=
  ⟨((submit_side_push_spec 1 [] [] [] ⟨0, 7⟩ ⟨9, 0, 1⟩ ⟨0, 0⟩).1 (by decide)).trans (by decide),
   (submit_side_push_spec 1 [⟨0, 7⟩] [] [] ⟨0, 8⟩ ⟨9, 0, 1⟩ ⟨0, 0⟩).2.1 (by decide),
   (((submit_side_push_spec 1 [] [] [] ⟨0, 7⟩ ⟨9, 0, 1⟩ ⟨0, 0⟩).2.2.2.2.1
       (by decide)).1).trans (by decide),
   ((submit_side_push_spec 1 [] [⟨0, 0, 1⟩] [] ⟨0, 7⟩ ⟨9, 0, 2⟩ ⟨0, 0⟩).2.2.2.2.2
       (by decide)).1⟩

end Msgrouter
